import Mathlib

/-!
Shallow embedding of the sportsref repository's entity and caching layer.

The files under src/ are sportsref/nfl/teams.py, sportsref/nfl/boxscores.py and
sportsref/nba/teams.py.  The sportsref.decorators module (memoize / memoized and the
Cached metaclass, i.e. the Call Memoizer and the Identity Registry) and the
sportsref.utils module are not in src/; where a definition depends on them it is
modelled from the spec and marked as such in its doc comment.  Everything else is
translated directly from the Python source, with machine-level behaviour (exceptions,
np.nan, CPython object identity) made explicit.
-/

set_option autoImplicit false

namespace Sportsref

/-! ## Python value utilities -/

/-- Numeric value of a list of ASCII digit characters, most significant first. -/
def digitsToNat (cs : List Char) : Nat :=
  cs.foldl (fun n c => 10 * n + (c.toNat - 48)) 0

/-- Whitespace as stripped by Python's int() conversion (ASCII whitespace). -/
def isPySpace (c : Char) : Bool :=
  c = ' ' || c = '\t' || c = '\n' || c = '\x0d' || c = '\x0b' || c = '\x0c'

/-- Python's int(s) applied to a str: strip whitespace, allow one optional sign,
then one or more decimal digits; any other input raises ValueError (none here). -/
def pyInt (s : String) : Option Int :=
  let cs := ((s.toList.dropWhile isPySpace).reverse.dropWhile isPySpace).reverse
  match cs with
  | '-' :: rest =>
      if rest ≠ [] ∧ rest.all Char.isDigit then some (-(digitsToNat rest : Int)) else none
  | '+' :: rest =>
      if rest ≠ [] ∧ rest.all Char.isDigit then some ((digitsToNat rest : Int)) else none
  | _ =>
      if cs ≠ [] ∧ cs.all Char.isDigit then some ((digitsToNat cs : Int)) else none

/-! ## Entities

Each Python instance is modelled as a record carrying its natural-key attribute
together with a `ref` field standing for CPython object identity (the value of id()).
The source's dunder methods never read `ref`; it exists so that statements about
"two different references with the same natural key" can be made. -/

/-- The NFL Team class (src/sportsref/nfl/teams.py): its only instance attribute is
teamID, set by Team.init at lines 70-71 with no validation. -/
structure NflTeam where
  ref : Nat
  teamID : String
deriving DecidableEq

/-- The NBA Team class (src/sportsref/nba/teams.py lines 10-11): same shape, a
distinct Python class. -/
structure NbaTeam where
  ref : Nat
  teamID : String
deriving DecidableEq

/-- The BoxScore class (src/sportsref/nfl/boxscores.py lines 43-44): its only
instance attribute is boxscore_id, set with no validation. -/
structure BoxScore where
  ref : Nat
  boxscore_id : String
deriving DecidableEq

/-- A duck-typed view of an arbitrary Python object: the readable attributes it
exposes, as a name-to-value mapping (values here are the string-valued natural-key
attributes the dunder methods read). -/
structure PyObj where
  attrs : List (String × String)
deriving DecidableEq

/-- Exceptions that the embedded fragments can raise. -/
inductive PyErr where
  | attributeError
deriving DecidableEq

def NflTeam.toObj (t : NflTeam) : PyObj := ⟨[("teamID", t.teamID)]⟩

def NbaTeam.toObj (t : NbaTeam) : PyObj := ⟨[("teamID", t.teamID)]⟩

def BoxScore.toObj (b : BoxScore) : PyObj := ⟨[("boxscore_id", b.boxscore_id)]⟩

/-- NFL Team.eq (src/sportsref/nfl/teams.py lines 73-74):
return (self.teamID == other.teamID).  There is no type or kind check: the attribute
read other.teamID raises AttributeError when the operand lacks it. -/
def NflTeam.pyEq (self : NflTeam) (other : PyObj) : Except PyErr Bool :=
  match other.attrs.lookup "teamID" with
  | some v => .ok (self.teamID == v)
  | none => .error .attributeError

/-- NBA Team.eq (src/sportsref/nba/teams.py lines 13-14): same body as the NFL class. -/
def NbaTeam.pyEq (self : NbaTeam) (other : PyObj) : Except PyErr Bool :=
  match other.attrs.lookup "teamID" with
  | some v => .ok (self.teamID == v)
  | none => .error .attributeError

/-- BoxScore.eq (src/sportsref/nfl/boxscores.py lines 46-47):
return self.boxscore_id == other.boxscore_id. -/
def BoxScore.pyEq (self : BoxScore) (other : PyObj) : Except PyErr Bool :=
  match other.attrs.lookup "boxscore_id" with
  | some v => .ok (self.boxscore_id == v)
  | none => .error .attributeError

/-- NFL Team.hash (lines 76-77): hash(self.teamID).  Python's str hash is
implementation-defined (siphash with per-process randomization), so it appears here
as an arbitrary function h of the key. -/
def NflTeam.pyHash (h : String → Nat) (t : NflTeam) : Nat := h t.teamID

/-- BoxScore.hash (src/sportsref/nfl/boxscores.py lines 49-50): hash(self.boxscore_id). -/
def BoxScore.pyHash (h : String → Nat) (b : BoxScore) : Nat := h b.boxscore_id

/-! ## Call Memoizer

Modelled from the spec: the sportsref.decorators module that implements the
memoize / memoized decorators is not under src/.  Per spec section 4.2, a memoized
call looks its call key up in the owning store; on hit it returns the stored result
without invoking the wrapped operation; on miss it invokes the operation once,
stores the result, and returns it.  The wrapped operations are deterministic given
the call key (spec section 2), so they appear as pure functions of the key. -/

/-- The reduced, comparable form of one argument of a memoized call (spec section
4.3): entity arguments contribute their natural key, never their physical identity
(which is also how the cache's dict behaves in the source, since the entities'
eq and hash read only the natural-key attribute). -/
inductive ArgKey where
  | entity (naturalKey : String)
  | str (s : String)
  | int (i : Int)
deriving DecidableEq

/-- An argument value passed to a memoized call. -/
inductive Arg where
  | team (t : NflTeam)
  | str (s : String)
  | int (i : Int)
deriving DecidableEq

/-- Modelled from the spec (section 4.3): the shared key-reduction utility of the
missing decorators module. -/
def Arg.reduceKey : Arg → ArgKey
  | .team t => .entity t.teamID
  | .str s => .str s
  | .int i => .int i

/-- A call key: owning entity's natural key, operation identifier, reduced
argument tuple (spec section 4.2). -/
abbrev CallKey := String × String × List ArgKey

/-- Derivation of the call key from the raw arguments. -/
def callKey (ownerKey opId : String) (args : List Arg) : CallKey :=
  (ownerKey, opId, args.map Arg.reduceKey)

/-- State of one memo store: the cached entries, plus the instrumentation demanded
by the spec's testable properties — the list of keys whose wrapped operation
actually executed, in order (its length is the spec's call counter). -/
structure MemoState (κ ρ : Type) where
  cache : List (κ × ρ)
  log : List κ
deriving DecidableEq

/-- A store as first created: empty, no executions. -/
def MemoState.init (κ ρ : Type) : MemoState κ ρ := ⟨[], []⟩

/-- Modelled from the spec: one memoized call (spec section 4.2 behavior clause). -/
def memoCall {κ ρ : Type} [DecidableEq κ] (f : κ → ρ) (s : MemoState κ ρ) (k : κ) :
    ρ × MemoState κ ρ :=
  match s.cache.lookup k with
  | some v => (v, s)
  | none => (f k, ⟨(k, f k) :: s.cache, s.log ++ [k]⟩)

/-- A sequence of memoized calls against one store, returning the results in order
and the final store. -/
def memoRun {κ ρ : Type} [DecidableEq κ] (f : κ → ρ) (s : MemoState κ ρ) :
    List κ → List ρ × MemoState κ ρ
  | [] => ([], s)
  | k :: ks =>
    let r := memoCall f s k
    let rest := memoRun f r.2 ks
    (r.1 :: rest.1, rest.2)

/-! ## Memoization of fallible operations

Modelled from the spec: per spec section 4.2 error clause (a) — the source
behavior — an exception raised by the wrapped operation (a FetchFailed from the
fetch collaborator behind get_doc / get_main_doc) propagates to the caller and is
not cached, so the next call with the same key re-attempts.  The fetch collaborator
is modelled as a function of a tick counter (the index of the invocation) so that a
failure followed by a success can be expressed. -/

/-- The fetch collaborator's single error kind (spec section 6). -/
inductive FetchErr where
  | fetchFailed
deriving DecidableEq

/-- One memoized call around a fallible operation: result, new cache, next tick,
and how many times the wrapped operation executed (0 or 1). -/
def memoCallE {κ ρ : Type} [DecidableEq κ] (fetch : Nat → κ → Except FetchErr ρ)
    (cache : List (κ × ρ)) (tick : Nat) (k : κ) :
    Except FetchErr ρ × List (κ × ρ) × Nat × Nat :=
  match cache.lookup k with
  | some v => (.ok v, cache, tick, 0)
  | none =>
    match fetch tick k with
    | .ok v => (.ok v, (k, v) :: cache, tick + 1, 1)
    | .error e => (.error e, cache, tick + 1, 1)

/-! ## Identity Registry

Modelled from the spec: the identity layer (the memoized decorator applied to the
Team classes and the Cached metaclass of BoxScore, both in the missing decorators
module) is not under src/.  Per spec section 4.1, get_or_create returns the already
registered instance for a (kind, natural key) pair when one exists and otherwise
constructs one (the constructors, from src/, store the key unvalidated), registers
it and returns it.  Instances live on a heap indexed by object identity `ref`;
mutable attribute state lives in the heap so that mutation visibility through a
second reference can be stated. -/

inductive Kind where
  | team
  | boxscore
deriving DecidableEq

/-- The mutable state of one entity instance: the natural key stored by the
constructor (Team.init / BoxScore.init in src/, which validate nothing), and any
attributes assigned later. -/
structure EntityState where
  key : String
  attrs : List (String × String)
deriving DecidableEq

/-- The process-wide registry: next fresh object id, the (kind, key)-to-instance
index, and the instance heap. -/
structure Registry where
  nextRef : Nat
  index : List ((Kind × String) × Nat)
  heap : List (Nat × EntityState)
deriving DecidableEq

/-- The registry at process start. -/
def Registry.empty : Registry := ⟨0, [], []⟩

/-- Modelled from the spec (section 4.1): return the registered instance when
present, otherwise construct (storing the key unvalidated, as the src constructors
do), register, and return. -/
def get_or_create (r : Registry) (kind : Kind) (key : String) : Nat × Registry :=
  match r.index.lookup (kind, key) with
  | some ref => (ref, r)
  | none =>
    (r.nextRef,
     ⟨r.nextRef + 1,
      ((kind, key), r.nextRef) :: r.index,
      (r.nextRef, ⟨key, []⟩) :: r.heap⟩)

/-- Heap update underlying attribute assignment: prepend the binding to the state
of every cell whose id is the reference. -/
def updateHeap (ref : Nat) (name val : String) :
    List (Nat × EntityState) → List (Nat × EntityState)
  | [] => []
  | (k, st) :: t =>
    if k = ref then (k, ⟨st.key, (name, val) :: st.attrs⟩) :: updateHeap ref name val t
    else (k, st) :: updateHeap ref name val t

/-- Assign an attribute through a reference (Python attribute assignment on the
instance the reference designates). -/
def Registry.setAttr (r : Registry) (ref : Nat) (name val : String) : Registry :=
  ⟨r.nextRef, r.index, updateHeap ref name val r.heap⟩

/-- Read an attribute through a reference. -/
def Registry.getAttr (r : Registry) (ref : Nat) (name : String) : Option String :=
  (r.heap.lookup ref).bind (fun st => st.attrs.lookup name)

/-- The identity-registry invariant of spec section 3: at most one live instance
per (kind, natural key) pair. -/
def Registry.uniqueInstances (r : Registry) : Prop :=
  (r.index.map Prod.fst).Nodup

instance (r : Registry) : Decidable r.uniqueInstances := by
  unfold Registry.uniqueInstances; infer_instance

/-- Registry well-formedness: unique instances, and every registered reference
designates a heap cell. -/
def Registry.WF (r : Registry) : Prop :=
  (r.index.map Prod.fst).Nodup ∧ ∀ p ∈ r.index, (r.heap.lookup p.2).isSome

/-- Registries reachable from process start by the registry's own operations. -/
inductive Registry.Reachable : Registry → Prop where
  | empty : Registry.Reachable Registry.empty
  | create (r : Registry) (kind : Kind) (key : String) :
      Registry.Reachable r → Registry.Reachable (get_or_create r kind key).2
  | mutate (r : Registry) (ref : Nat) (n v : String) :
      Registry.Reachable r → Registry.Reachable (r.setAttr ref n v)

/-! ## Game-info operations: surface and weather

These translate BoxScore.surface (src/sportsref/nfl/boxscores.py lines 252-262) and
BoxScore.weather (lines 311-353).  Both read the game-info table through
sportsref.utils.parse_info_table, the external parse collaborator (spec sections 1
and 6); its output, a mapping from info-row keys to text values, is the input here. -/

/-- A value produced by a game-info accessor: a string payload, a weather
dictionary, or np.nan — the NotAvailable sentinel of the spec's error taxonomy. -/
inductive PyRes where
  | str (s : String)
  | dict (d : Option Int × Option Int × Option Int × Int)
  | nan
deriving DecidableEq

/-- BoxScore.surface: giTable.get('surface', np.nan) — the stored string when the
table has a surface row, np.nan otherwise. -/
def surface (giTable : List (String × String)) : PyRes :=
  match giTable.lookup "surface" with
  | some s => .str s
  | none => .nan

/-- Consume the regex fragment -?d+ (greedy) from the front: the signed integer
value and the remaining characters. -/
def takeInt : List Char → Option (Int × List Char)
  | '-' :: rest =>
      let ds := rest.takeWhile Char.isDigit
      if ds = [] then none else some (-(digitsToNat ds : Int), rest.drop ds.length)
  | cs =>
      let ds := cs.takeWhile Char.isDigit
      if ds = [] then none else some ((digitsToNat ds : Int), cs.drop ds.length)

/-- Consume the regex fragment d+ (greedy) from the front. -/
def takeNat (cs : List Char) : Option (Nat × List Char) :=
  let ds := cs.takeWhile Char.isDigit
  if ds = [] then none else some (digitsToNat ds, cs.drop ds.length)

/-- Consume an exact literal from the front. -/
def takeLit (lit : List Char) (cs : List Char) : Option (List Char) :=
  if cs.take lit.length = lit then some (cs.drop lit.length) else none

/-- Optional weather-regex group 1, (?:(-?d+) degrees )? : matched greedily when the
whole group fits at the current position, otherwise skipped (all groups of the
pattern are optional and independent, so the regex's backtracking reduces to this
try-then-skip behaviour). -/
def matchTemp (cs : List Char) : Option Int × List Char :=
  match takeInt cs with
  | some (n, rest) =>
    match takeLit " degrees ".toList rest with
    | some rest2 => (some n, rest2)
    | none => (none, cs)
  | none => (none, cs)

/-- Optional group 2, (?:relative humidity (d+)%, )? . -/
def matchHumidity (cs : List Char) : Option Nat × List Char :=
  match takeLit "relative humidity ".toList cs with
  | some r1 =>
    match takeNat r1 with
    | some (n, r2) =>
      match takeLit "%, ".toList r2 with
      | some r3 => (some n, r3)
      | none => (none, cs)
    | none => (none, cs)
  | none => (none, cs)

/-- Optional group 3, (?:wind (d+) mph, )? . -/
def matchWind (cs : List Char) : Option Nat × List Char :=
  match takeLit "wind ".toList cs with
  | some r1 =>
    match takeNat r1 with
    | some (n, r2) =>
      match takeLit " mph, ".toList r2 with
      | some r3 => (some n, r3)
      | none => (none, cs)
    | none => (none, cs)
  | none => (none, cs)

/-- Optional group 4, (?:wind chill (-?d+))? . -/
def matchChill (cs : List Char) : Option Int × List Char :=
  match takeLit "wind chill ".toList cs with
  | some r1 =>
    match takeInt r1 with
    | some (n, r2) => (some n, r2)
    | none => (none, cs)
  | none => (none, cs)

/-- The body of the weather branch of BoxScore.weather (lines 326-347): re.match of
the four-group pattern against the weather text, int casts (unmatched groups stay
None via the TypeError branch), then the two one-off fixes — windChill defaults to
temp, windMPH defaults to 0.  Dict order: temp, windChill, relHumidity, windMPH. -/
def parseWeatherStr (s : String) : Option Int × Option Int × Option Int × Int :=
  let cs := s.toList
  let t := matchTemp cs
  let h := matchHumidity t.2
  let w := matchWind h.2
  let c := matchChill w.2
  let windChill : Option Int := match c.1 with | some wc => some wc | none => t.1
  let windMPH : Int := match w.1 with | some n => (n : Int) | none => 0
  (t.1, windChill, h.1.map (fun n => (n : Int)), windMPH)

/-- The dictionary BoxScore.weather returns for games with no weather row
(lines 348-353): temp 70, windChill 70, relHumidity None, windMPH 0 — a dome. -/
def domeDefault : Option Int × Option Int × Option Int × Int :=
  (some 70, some 70, none, 0)

/-- BoxScore.weather (lines 311-353): parse the weather row when the game-info
table has one, otherwise return the substituted dome default dictionary. -/
def weather (giTable : List (String × String)) : PyRes :=
  match giTable.lookup "weather" with
  | some w => .dict (parseWeatherStr w)
  | none => .dict domeDefault

/-! ## Linescore operations: home, away, scores, winner

These translate BoxScore.home / away / home_score / away_score / winner
(src/sportsref/nfl/boxscores.py lines 92-144).  They read the linescore table of
the document fetched by get_doc; the document is represented by what those methods
select from it: the rows of table.linescore, each with its anchor hrefs and its td
text contents in order.  A pyquery selection that is empty makes the subsequent
[-1] or [2] indexing raise, and int() on a non-numeric cell raises; a raised
exception is none. -/

structure LinescoreRow where
  anchorHrefs : List String
  tds : List String
deriving DecidableEq

/-- The fetched boxscore document, as consumed by the linescore accessors: row 1 of
table.linescore is the away line, row 2 the home line. -/
structure BoxDoc where
  linescoreRows : List LinescoreRow
deriving DecidableEq

/-- Split a character list at every slash. -/
def splitSlash : List Char → List (List Char)
  | [] => [[]]
  | c :: cs =>
    let r := splitSlash cs
    if c = '/' then [] :: r
    else
      match r with
      | [] => [[c]]
      | h :: t => (c :: h) :: t

/-- Modelled from the spec: sportsref.utils.rel_url_to_id is not under src/ (the
utils module is an external collaborator per spec section 1); on the team links that
appear in the linescore, such as /teams/nwe/2016.htm, it returns the team ID path
segment. -/
def rel_url_to_id (url : String) : String :=
  match splitSlash url.toList with
  | _ :: _ :: id :: _ => ⟨id⟩
  | _ => ""

/-- BoxScore.home (lines 92-101): table('tr').eq(2)('a').eq(2) href, through
rel_url_to_id. -/
def home (doc : BoxDoc) : Option String :=
  (doc.linescoreRows.get? 2).bind fun row =>
    (row.anchorHrefs.get? 2).map rel_url_to_id

/-- BoxScore.away (lines 103-112): same with row 1. -/
def away (doc : BoxDoc) : Option String :=
  (doc.linescoreRows.get? 1).bind fun row =>
    (row.anchorHrefs.get? 2).map rel_url_to_id

/-- BoxScore.home_score (lines 114-122): int of the last td of row 2. -/
def home_score (doc : BoxDoc) : Option Int :=
  (doc.linescoreRows.get? 2).bind fun row => row.tds.getLast?.bind pyInt

/-- BoxScore.away_score (lines 124-132): int of the last td of row 1. -/
def away_score (doc : BoxDoc) : Option Int :=
  (doc.linescoreRows.get? 1).bind fun row => row.tds.getLast?.bind pyInt

/-- A value returned by BoxScore.winner: a team ID, or np.nan for a tie. -/
inductive WinnerRes where
  | team (id : String)
  | nan
deriving DecidableEq

/-- BoxScore.winner (lines 134-144): home() when the home score is greater, away()
when it is smaller, np.nan on a tie. -/
def winner (doc : BoxDoc) : Option WinnerRes :=
  (home_score doc).bind fun hmScore =>
    (away_score doc).bind fun awScore =>
      if hmScore > awScore then (home doc).map WinnerRes.team
      else if hmScore < awScore then (away doc).map WinnerRes.team
      else some WinnerRes.nan

/-! ## Date and season

BoxScore.date (src/sportsref/nfl/boxscores.py lines 70-78) and BoxScore.season
(lines 162-171). -/

structure PyDate where
  year : Nat
  month : Nat
  day : Nat
deriving DecidableEq

/-- Gregorian leap-year rule, as used by datetime. -/
def isLeapYear (y : Nat) : Bool :=
  y % 4 = 0 && (y % 100 ≠ 0 || y % 400 = 0)

/-- Days in a month, as enforced by datetime.date. -/
def daysInMonth (y m : Nat) : Nat :=
  if m = 2 then (if isLeapYear y then 29 else 28)
  else if m = 4 ∨ m = 6 ∨ m = 9 ∨ m = 11 then 30
  else 31

/-- datetime.date(year, month, day): raises ValueError (none here) unless
MINYEAR 1 <= year <= MAXYEAR 9999, 1 <= month <= 12 and 1 <= day <= days in that
month. -/
def datetime_date (y m d : Nat) : Option PyDate :=
  if 1 ≤ y ∧ y ≤ 9999 ∧ 1 ≤ m ∧ m ≤ 12 ∧ 1 ≤ d ∧ d ≤ daysInMonth y m then
    some ⟨y, m, d⟩
  else none

/-- re.match of (d d d d)(d d)(d d) against the boxscore id: the three leading
digit groups as numbers, or none when the id does not start with eight ASCII
digits (match is None, and .groups() on it raises AttributeError). -/
def matchDateGroups (s : String) : Option (Nat × Nat × Nat) :=
  let cs := s.toList
  if 8 ≤ cs.length ∧ (cs.take 8).all Char.isDigit then
    some (digitsToNat (cs.take 4), digitsToNat ((cs.drop 4).take 2),
          digitsToNat ((cs.drop 6).take 2))
  else none

/-- BoxScore.date (lines 70-78): the calendar date encoded in the first eight
characters of the boxscore id; raises when they are not digits or not a valid
date. -/
def BoxScore.date (b : BoxScore) : Option PyDate :=
  (matchDateGroups b.boxscore_id).bind fun g => datetime_date g.1 g.2.1 g.2.2

/-- BoxScore.season (lines 162-171): date.year - 1 for January-March dates,
date.year otherwise; propagates a raise from date(). -/
def BoxScore.season (b : BoxScore) : Option Nat :=
  b.date.map fun dt => if dt.month ≤ 3 then dt.year - 1 else dt.year

/-! ## Witness fixtures -/

/-- Memo-store sanity property: the executed-operations log has no repeats, and
every logged key has a cached entry. -/
def MemoState.Sane {κ ρ : Type} [DecidableEq κ] (s : MemoState κ ρ) : Prop :=
  s.log.Nodup ∧ ∀ k ∈ s.log, (s.cache.lookup k).isSome

/-- A concrete fetched boxscore document used in witnesses: linescore with a header
row, the away line (Atlanta, 28) and the home line (New England, 34). -/
def exDoc : BoxDoc :=
  ⟨[⟨[], []⟩,
    ⟨["/x", "/y", "/teams/atl/2016.htm"], ["Atlanta Falcons", "0", "21", "7", "0", "0", "28"]⟩,
    ⟨["/x", "/y", "/teams/nwe/2016.htm"], ["New England Patriots", "0", "3", "6", "19", "6", "34"]⟩]⟩

/-- A concrete fetched boxscore document used in witnesses: a tie game (20 all). -/
def exDocTie : BoxDoc :=
  ⟨[⟨[], []⟩,
    ⟨["/x", "/y", "/teams/cin/2016.htm"], ["Cincinnati Bengals", "7", "3", "10", "0", "0", "20"]⟩,
    ⟨["/x", "/y", "/teams/was/2016.htm"], ["Washington Redskins", "7", "10", "0", "3", "0", "20"]⟩]⟩

/-- A concrete fetch collaborator used in witnesses: fails on its first invocation,
then serves a document text. -/
def flakyFetch : Nat → CallKey → Except FetchErr String :=
  fun tick _ => if tick = 0 then .error .fetchFailed else .ok "<html>doc</html>"

/-! ## Association-list helper lemmas -/

theorem lookup_self {α β : Type} [BEq α] [LawfulBEq α] (a : α) (b : β) (l : List (α × β)) :
    List.lookup a ((a, b) :: l) = some b := by
  simp [List.lookup_cons]

theorem lookup_none_not_mem {α β : Type} [BEq α] [LawfulBEq α] {a : α} {l : List (α × β)}
    (h : List.lookup a l = none) : a ∉ l.map Prod.fst := by
  induction l with
  | nil => simp
  | cons p t ih =>
    obtain ⟨k, b⟩ := p
    rw [List.lookup_cons] at h
    cases hab : a == k
    · rw [hab] at h
      simp only [List.map_cons, List.mem_cons, not_or]
      exact ⟨ne_of_beq_false hab, ih h⟩
    · rw [hab] at h
      simp at h

theorem mem_of_lookup {α β : Type} [BEq α] [LawfulBEq α] {a : α} {b : β} {l : List (α × β)}
    (h : List.lookup a l = some b) : (a, b) ∈ l := by
  induction l with
  | nil => simp [List.lookup] at h
  | cons p t ih =>
    obtain ⟨k, v⟩ := p
    rw [List.lookup_cons] at h
    cases hab : a == k
    · rw [hab] at h
      exact List.mem_cons_of_mem _ (ih h)
    · rw [hab] at h
      obtain rfl := eq_of_beq hab
      obtain rfl : v = b := Option.some.inj h
      exact List.mem_cons_self _ _

theorem lookup_isSome_cons {α β : Type} [BEq α] [LawfulBEq α] (p : α × β) {x : α}
    {l : List (α × β)} (h : (List.lookup x l).isSome) :
    (List.lookup x (p :: l)).isSome := by
  obtain ⟨k, v⟩ := p
  rw [List.lookup_cons]
  cases hx : x == k
  · exact h
  · rfl

theorem updateHeap_lookup_isSome (ref : Nat) (n v : String) (x : Nat)
    (heap : List (Nat × EntityState)) :
    (List.lookup x (updateHeap ref n v heap)).isSome = (List.lookup x heap).isSome := by
  induction heap with
  | nil => rfl
  | cons p t ih =>
    obtain ⟨k, st⟩ := p
    by_cases hk : k = ref
    · simp only [updateHeap, if_pos hk]
      rw [List.lookup_cons, List.lookup_cons]
      cases hx : x == k
      · exact ih
      · rfl
    · simp only [updateHeap, if_neg hk]
      rw [List.lookup_cons, List.lookup_cons]
      cases hx : x == k
      · exact ih
      · rfl

theorem updateHeap_lookup_self {ref : Nat} {st : EntityState} (n v : String)
    {heap : List (Nat × EntityState)} (h : List.lookup ref heap = some st) :
    List.lookup ref (updateHeap ref n v heap) = some ⟨st.key, (n, v) :: st.attrs⟩ := by
  induction heap with
  | nil => simp [List.lookup] at h
  | cons p t ih =>
    obtain ⟨k, s⟩ := p
    by_cases hk : k = ref
    · subst hk
      rw [List.lookup_cons, beq_self_eq_true] at h
      obtain rfl : s = st := Option.some.inj h
      simp [updateHeap, List.lookup_cons]
    · have hbk : (ref == k) = false := beq_eq_false_iff_ne.mpr (Ne.symm hk)
      rw [List.lookup_cons, hbk] at h
      simp only [updateHeap, if_neg hk]
      rw [List.lookup_cons, hbk]
      exact ih h

/-! ## Memoizer lemmas -/

theorem memoRun_cached {κ ρ : Type} [DecidableEq κ] (f : κ → ρ) (k : κ) (v : ρ) (n : Nat)
    (s : MemoState κ ρ) (h : s.cache.lookup k = some v) :
    memoRun f s (List.replicate n k) = (List.replicate n v, s) := by
  induction n with
  | zero => simp [memoRun]
  | succ m ih => simp [List.replicate_succ, memoRun, memoCall, h, ih]

theorem memoCall_sane {κ ρ : Type} [DecidableEq κ] (f : κ → ρ) (s : MemoState κ ρ)
    (k : κ) (h : s.Sane) : (memoCall f s k).2.Sane := by
  cases hc : s.cache.lookup k with
  | some v => simpa [memoCall, hc] using h
  | none =>
    simp only [memoCall, hc]
    refine ⟨?_, ?_⟩
    · rw [List.nodup_append]
      refine ⟨h.1, List.nodup_singleton k, ?_⟩
      intro a ha hb
      rw [List.mem_singleton] at hb
      subst hb
      have hsome := h.2 a ha
      rw [hc] at hsome
      simp at hsome
    · intro k' hk'
      rw [List.mem_append, List.mem_singleton] at hk'
      rcases hk' with hk' | rfl
      · exact lookup_isSome_cons _ (h.2 k' hk')
      · rw [lookup_self]; rfl

theorem memoRun_sane {κ ρ : Type} [DecidableEq κ] (f : κ → ρ) (ks : List κ)
    (s : MemoState κ ρ) (h : s.Sane) : (memoRun f s ks).2.Sane := by
  induction ks generalizing s with
  | nil => exact h
  | cons k t ih =>
    simp only [memoRun]
    exact ih _ (memoCall_sane f s k h)

theorem memoRun_twice {κ ρ : Type} [DecidableEq κ] (f : κ → ρ) (k : κ) :
    memoRun f (MemoState.init κ ρ) [k, k] = ([f k, f k], ⟨[(k, f k)], [k]⟩) := by
  simp [memoRun, memoCall, MemoState.init, List.lookup, lookup_self]

/-- C1: at-most-one execution of a wrapped operation per unique call key: over any
call sequence from process start, the executed-operations log counts every key at
most once; and N identical calls against a fresh store execute the operation
exactly once (log [k]), every later call returns the stored result without a new
execution, and all N results are equal. -/
theorem memoize_at_most_once {κ ρ : Type} [DecidableEq κ] (f : κ → ρ) (ks : List κ)
    (k : κ) (n : Nat) (hn : 1 ≤ n) :
    (memoRun f (MemoState.init κ ρ) ks).2.log.count k ≤ 1 ∧
    memoRun f (MemoState.init κ ρ) (List.replicate n k) =
      (List.replicate n (f k), ⟨[(k, f k)], [k]⟩) := by
  constructor
  · have hs : (memoRun f (MemoState.init κ ρ) ks).2.Sane :=
      memoRun_sane f ks _ ⟨List.nodup_nil, by intro k' hk'; simp [MemoState.init] at hk'⟩
    exact List.nodup_iff_count_le_one.mp hs.1 k
  · obtain ⟨m, rfl⟩ : ∃ m, n = m + 1 := ⟨n - 1, by omega⟩
    rw [List.replicate_succ]
    simp only [memoRun]
    have h1 : memoCall f (MemoState.init κ ρ) k = (f k, ⟨[(k, f k)], [k]⟩) := by
      simp [memoCall, MemoState.init, List.lookup]
    rw [h1]
    rw [memoRun_cached f k (f k) m _ (lookup_self k (f k) [])]
    rw [List.replicate_succ]

/-- C1 witness at concrete inputs: the Team.name operation of Team('nwe'), called
three times, executes once and yields three equal results. -/
theorem memoize_at_most_once_witness :
    (memoRun (fun _ => "New England Patriots") (MemoState.init CallKey String)
        [("nwe", "name", []), ("ram", "name", []), ("nwe", "name", [])]).2.log.count
      ("nwe", "name", []) ≤ 1 ∧
    memoRun (fun _ => "New England Patriots") (MemoState.init CallKey String)
        (List.replicate 3 (("nwe", "name", ([] : List ArgKey)))) =
      (List.replicate 3 "New England Patriots",
       ⟨[((("nwe", "name", ([] : List ArgKey))), "New England Patriots")],
        [("nwe", "name", ([] : List ArgKey))]⟩) :=
  memoize_at_most_once (fun _ => "New England Patriots")
    [("nwe", "name", ([] : List ArgKey)), ("ram", "name", []), ("nwe", "name", [])]
    ("nwe", "name", ([] : List ArgKey)) 3 (by decide)

/-- C4: an entity argument contributes its natural key, not its physical identity,
to the call key: two calls passing two different references (distinct ref) with the
same teamID produce the same call key, hit the same cache entry, and the wrapped
operation runs only once. -/
theorem entity_args_hit_same_entry {ρ : Type} (f : CallKey → ρ) (ownerKey opId : String)
    (t1 t2 : NflTeam) (hkey : t1.teamID = t2.teamID) (_href : t1.ref ≠ t2.ref) :
    callKey ownerKey opId [.team t1] = callKey ownerKey opId [.team t2] ∧
    memoRun f (MemoState.init CallKey ρ)
        [callKey ownerKey opId [.team t1], callKey ownerKey opId [.team t2]] =
      ([f (callKey ownerKey opId [.team t1]), f (callKey ownerKey opId [.team t1])],
       ⟨[(callKey ownerKey opId [.team t1], f (callKey ownerKey opId [.team t1]))],
        [callKey ownerKey opId [.team t1]]⟩) := by
  have hk : callKey ownerKey opId [.team t1] = callKey ownerKey opId [.team t2] := by
    simp [callKey, Arg.reduceKey, hkey]
  refine ⟨hk, ?_⟩
  rw [← hk]
  exact memoRun_twice f _

/-- C4 witness at concrete inputs: Team references with ids 0 and 1, both with
teamID nwe, passed as the argument of a roster-style call. -/
theorem entity_args_hit_same_entry_witness :
    callKey "nwe" "roster" [.team ⟨0, "nwe"⟩] = callKey "nwe" "roster" [.team ⟨1, "nwe"⟩] ∧
    memoRun (fun _ => "rows") (MemoState.init CallKey String)
        [callKey "nwe" "roster" [.team ⟨0, "nwe"⟩],
         callKey "nwe" "roster" [.team ⟨1, "nwe"⟩]] =
      (["rows", "rows"],
       ⟨[(("nwe", "roster", [ArgKey.entity "nwe"]), "rows")],
        [("nwe", "roster", [ArgKey.entity "nwe"])]⟩) :=
  entity_args_hit_same_entry (fun _ => "rows") "nwe" "roster" ⟨0, "nwe"⟩ ⟨1, "nwe"⟩
    rfl (by decide)

/-! ## Identity-registry lemmas -/

theorem get_or_create_wf (r : Registry) (kind : Kind) (key : String) (h : r.WF) :
    (get_or_create r kind key).2.WF := by
  cases hc : r.index.lookup (kind, key) with
  | some ref => simpa [get_or_create, hc] using h
  | none =>
    simp only [get_or_create, hc]
    refine ⟨?_, ?_⟩
    · simp only [List.map_cons]
      rw [List.nodup_cons]
      exact ⟨lookup_none_not_mem hc, h.1⟩
    · intro p hp
      rw [List.mem_cons] at hp
      rcases hp with rfl | hp
      · rw [lookup_self]; rfl
      · exact lookup_isSome_cons _ (h.2 p hp)

theorem setAttr_wf (r : Registry) (ref : Nat) (n v : String) (h : r.WF) :
    (r.setAttr ref n v).WF := by
  refine ⟨h.1, ?_⟩
  intro p hp
  simp only [Registry.setAttr] at hp ⊢
  rw [updateHeap_lookup_isSome]
  exact h.2 p hp

theorem reachable_wf {r : Registry} (h : r.Reachable) : r.WF := by
  induction h with
  | empty =>
    exact ⟨List.nodup_nil, by intro p hp; simp [Registry.empty] at hp⟩
  | create r kind key _ ih => exact get_or_create_wf r kind key ih
  | mutate r ref n v _ ih => exact setAttr_wf r ref n v ih

theorem lookup_after_goc (r : Registry) (kind : Kind) (key : String) :
    (get_or_create r kind key).2.index.lookup (kind, key) =
      some (get_or_create r kind key).1 := by
  cases hc : r.index.lookup (kind, key) with
  | some ref => simp [get_or_create, hc]
  | none => simp [get_or_create, hc, lookup_self]

theorem goc_of_lookup_some {r : Registry} {kind : Kind} {key : String} {ref : Nat}
    (h : r.index.lookup (kind, key) = some ref) :
    get_or_create r kind key = (ref, r) := by
  simp [get_or_create, h]

theorem goc_same_ref (r : Registry) (kind : Kind) (key : String) :
    (get_or_create (get_or_create r kind key).2 kind key).1 =
        (get_or_create r kind key).1 ∧
      (get_or_create (get_or_create r kind key).2 kind key).2 =
        (get_or_create r kind key).2 := by
  rw [goc_of_lookup_some (lookup_after_goc r kind key)]
  exact ⟨rfl, rfl⟩

/-- C2: two construction requests with the same kind and natural key return the
same underlying object — the same reference, through which a mutation made via one
is observed via the other — and every reachable registry keeps at most one live
instance per (kind, key) pair, also after the two requests and the mutation. -/
theorem identity_registry_unique (r : Registry) (kind : Kind) (key n v : String)
    (hr : r.Reachable) :
    (get_or_create (get_or_create r kind key).2 kind key).1 =
        (get_or_create r kind key).1 ∧
      ((get_or_create (get_or_create r kind key).2 kind key).2.setAttr
            (get_or_create r kind key).1 n v).getAttr
          (get_or_create (get_or_create r kind key).2 kind key).1 n = some v ∧
      ((get_or_create (get_or_create r kind key).2 kind key).2.setAttr
          (get_or_create r kind key).1 n v).uniqueInstances := by
  obtain ⟨hid, hst⟩ := goc_same_ref r kind key
  rw [hid, hst]
  have hwf : (get_or_create r kind key).2.WF :=
    get_or_create_wf r kind key (reachable_wf hr)
  have hmem : ((kind, key), (get_or_create r kind key).1) ∈
      (get_or_create r kind key).2.index :=
    mem_of_lookup (lookup_after_goc r kind key)
  obtain ⟨st, hsome⟩ : ∃ st,
      (get_or_create r kind key).2.heap.lookup (get_or_create r kind key).1 = some st :=
    Option.isSome_iff_exists.mp (hwf.2 _ hmem)
  refine ⟨rfl, ?_, ?_⟩
  · simp only [Registry.getAttr, Registry.setAttr]
    rw [updateHeap_lookup_self n v hsome]
    simp [lookup_self]
  · exact hwf.1

/-- C2 witness at concrete inputs: requesting Team nwe twice from a fresh registry
yields one shared instance; an attribute written through the first reference is
read back through the second; uniqueness holds throughout. -/
theorem identity_registry_unique_witness :
    (get_or_create (get_or_create Registry.empty Kind.team "nwe").2 Kind.team "nwe").1 =
        (get_or_create Registry.empty Kind.team "nwe").1 ∧
      ((get_or_create (get_or_create Registry.empty Kind.team "nwe").2 Kind.team "nwe").2.setAttr
            (get_or_create Registry.empty Kind.team "nwe").1 "note" "hi").getAttr
          (get_or_create (get_or_create Registry.empty Kind.team "nwe").2 Kind.team "nwe").1
          "note" = some "hi" ∧
      ((get_or_create (get_or_create Registry.empty Kind.team "nwe").2 Kind.team "nwe").2.setAttr
          (get_or_create Registry.empty Kind.team "nwe").1 "note" "hi").uniqueInstances :=
  identity_registry_unique Registry.empty Kind.team "nwe" "note" "hi"
    Registry.Reachable.empty

/-- C7 counterexample: the empty string is malformed as a natural key for either
entity kind (team IDs are 3-character identifiers, boxscore ids begin with a
date), yet construction succeeds and the registry registers an entity under it —
no InvalidKey failure occurs anywhere. -/
theorem malformed_key_registered :
    (get_or_create Registry.empty Kind.team "").1 = 0 ∧
    (get_or_create Registry.empty Kind.team "").2.index.lookup (Kind.team, "") = some 0 ∧
    ((get_or_create Registry.empty Kind.team "").2.heap.lookup 0).map EntityState.key =
      some "" := by
  refine ⟨rfl, rfl, rfl⟩

/-- C7 amended: construction never fails on a malformed key — neither the
constructors (which store the key unvalidated) nor get_or_create validate, so an
entity is registered under every key, malformed or not. -/
theorem construction_accepts_any_key (r : Registry) (kind : Kind) (key : String) :
    (get_or_create r kind key).2.index.lookup (kind, key) =
      some (get_or_create r kind key).1 :=
  lookup_after_goc r kind key

/-! ## Error handling: transient failures -/

/-- C6: a FetchFailed raised inside a memoized operation propagates and is not
cached: the first call on a fresh cache reports the error and leaves the cache
empty, the next call with the same key re-attempts the fetch and, on success,
computes and caches the result; a further call then hits the cache without
invoking the fetch again. -/
theorem fetch_failure_not_cached {κ ρ : Type} [DecidableEq κ]
    (fetch : Nat → κ → Except FetchErr ρ) (k : κ) (v : ρ)
    (h0 : fetch 0 k = .error .fetchFailed) (h1 : fetch 1 k = .ok v) :
    memoCallE fetch [] 0 k = (.error .fetchFailed, [], 1, 1) ∧
    memoCallE fetch [] 1 k = (.ok v, [(k, v)], 2, 1) ∧
    memoCallE fetch [(k, v)] 2 k = (.ok v, [(k, v)], 2, 0) := by
  refine ⟨?_, ?_, ?_⟩
  · simp [memoCallE, h0, List.lookup]
  · simp [memoCallE, h1, List.lookup]
  · simp [memoCallE, lookup_self]

/-- C6 witness at concrete inputs: a get_doc call behind a fetch that fails once
then serves the page. -/
theorem fetch_failure_not_cached_witness :
    memoCallE flakyFetch [] 0 ("201609080den", "get_doc", ([] : List ArgKey)) =
      (.error .fetchFailed, [], 1, 1) ∧
    memoCallE flakyFetch [] 1 ("201609080den", "get_doc", ([] : List ArgKey)) =
      (.ok "<html>doc</html>",
       [((("201609080den", "get_doc", ([] : List ArgKey))), "<html>doc</html>")], 2, 1) ∧
    memoCallE flakyFetch
        [((("201609080den", "get_doc", ([] : List ArgKey))), "<html>doc</html>")] 2
        ("201609080den", "get_doc", ([] : List ArgKey)) =
      (.ok "<html>doc</html>",
       [((("201609080den", "get_doc", ([] : List ArgKey))), "<html>doc</html>")], 2, 0) :=
  fetch_failure_not_cached flakyFetch ("201609080den", "get_doc", ([] : List ArgKey))
    "<html>doc</html>" rfl rfl

/-! ## Error handling: absent fields -/

/-- C5 counterexample: for a dome game — a game-info table with no weather row —
BoxScore.weather returns the substituted default dictionary (temp 70, windChill
70, relHumidity None, windMPH 0), not the np.nan NotAvailable sentinel the claim
requires. -/
theorem weather_dome_returns_default :
    weather [] = PyRes.dict domeDefault ∧
    weather [] ≠ PyRes.nan ∧
    domeDefault = (some 70, some 70, none, 0) := by
  refine ⟨rfl, by decide, rfl⟩

/-- C5 amended: when the game-info table lacks the field, BoxScore.surface does
return the np.nan NotAvailable sentinel, while BoxScore.weather substitutes the
default dome dictionary rather than any sentinel; either outcome is cached like a
normal result, so a repeated query returns the stored value without re-running
the operation. -/
theorem absent_fields_cached (gi : List (String × String)) (ks kw : CallKey)
    (hs : gi.lookup "surface" = none) (hw : gi.lookup "weather" = none) :
    surface gi = PyRes.nan ∧
    weather gi = PyRes.dict domeDefault ∧
    memoRun (fun _ => surface gi) (MemoState.init CallKey PyRes) [ks, ks] =
      ([PyRes.nan, PyRes.nan], ⟨[(ks, PyRes.nan)], [ks]⟩) ∧
    memoRun (fun _ => weather gi) (MemoState.init CallKey PyRes) [kw, kw] =
      ([PyRes.dict domeDefault, PyRes.dict domeDefault],
       ⟨[(kw, PyRes.dict domeDefault)], [kw]⟩) := by
  have h1 : surface gi = PyRes.nan := by simp [surface, hs]
  have h2 : weather gi = PyRes.dict domeDefault := by simp [weather, hw]
  refine ⟨h1, h2, ?_, ?_⟩
  · simpa [h1] using memoRun_twice (fun _ => surface gi) ks
  · simpa [h2] using memoRun_twice (fun _ => weather gi) kw

/-- C5 amended witness at concrete inputs: a game-info table carrying only a roof
row. -/
theorem absent_fields_cached_witness :
    surface [("roof", "dome")] = PyRes.nan ∧
    weather [("roof", "dome")] = PyRes.dict domeDefault ∧
    memoRun (fun _ => surface [("roof", "dome")]) (MemoState.init CallKey PyRes)
        [("201609080den", "surface", []), ("201609080den", "surface", [])] =
      ([PyRes.nan, PyRes.nan],
       ⟨[(("201609080den", "surface", []), PyRes.nan)], [("201609080den", "surface", [])]⟩) ∧
    memoRun (fun _ => weather [("roof", "dome")]) (MemoState.init CallKey PyRes)
        [("201609080den", "weather", []), ("201609080den", "weather", [])] =
      ([PyRes.dict domeDefault, PyRes.dict domeDefault],
       ⟨[(("201609080den", "weather", []), PyRes.dict domeDefault)],
        [("201609080den", "weather", [])]⟩) :=
  absent_fields_cached [("roof", "dome")] ("201609080den", "surface", ([] : List ArgKey))
    ("201609080den", "weather", ([] : List ArgKey)) rfl rfl

/-! ## Equality and hashing -/

/-- C3: entities of the same kind compare equal exactly when their natural keys
are equal, and equal entities hash equal, whichever string hash Python applies. -/
theorem eq_hash_consistency (a b : NflTeam) (c e : BoxScore) (h : String → Nat) :
    (NflTeam.pyEq a b.toObj = .ok true ↔ a.teamID = b.teamID) ∧
    (NflTeam.pyEq a b.toObj = .ok true → NflTeam.pyHash h a = NflTeam.pyHash h b) ∧
    (BoxScore.pyEq c e.toObj = .ok true ↔ c.boxscore_id = e.boxscore_id) ∧
    (BoxScore.pyEq c e.toObj = .ok true → BoxScore.pyHash h c = BoxScore.pyHash h e) := by
  have hT : NflTeam.pyEq a b.toObj = .ok (a.teamID == b.teamID) := by
    simp [NflTeam.pyEq, NflTeam.toObj, lookup_self]
  have hB : BoxScore.pyEq c e.toObj = .ok (c.boxscore_id == e.boxscore_id) := by
    simp [BoxScore.pyEq, BoxScore.toObj, lookup_self]
  refine ⟨?_, ?_, ?_, ?_⟩
  · rw [hT]; simp
  · rw [hT]; intro hh; simp only [Except.ok.injEq, beq_iff_eq] at hh
    simp [NflTeam.pyHash, hh]
  · rw [hB]; simp
  · rw [hB]; intro hh; simp only [Except.ok.injEq, beq_iff_eq] at hh
    simp [BoxScore.pyHash, hh]

/-- C10: entity equality is duck-typed with no kind check: against any object
exposing the natural-key attribute it is plain key equality — so an NFL Team and
an NBA Team with equal teamIDs compare equal — and against any object lacking the
attribute it raises AttributeError instead of returning False or NotImplemented. -/
theorem eq_no_type_check (a : NflTeam) (b : NbaTeam) (c : BoxScore) (q o p : PyObj)
    (v : String) (hq : q.attrs.lookup "teamID" = some v)
    (ho : o.attrs.lookup "teamID" = none)
    (hp : p.attrs.lookup "boxscore_id" = none) :
    NflTeam.pyEq a q = .ok (a.teamID == v) ∧
    NflTeam.pyEq a b.toObj = .ok (a.teamID == b.teamID) ∧
    NbaTeam.pyEq b a.toObj = .ok (b.teamID == a.teamID) ∧
    NflTeam.pyEq a o = .error .attributeError ∧
    BoxScore.pyEq c p = .error .attributeError := by
  refine ⟨?_, ?_, ?_, ?_, ?_⟩ <;>
    simp [NflTeam.pyEq, NbaTeam.pyEq, BoxScore.pyEq, NflTeam.toObj, NbaTeam.toObj,
      hq, ho, hp, lookup_self]

/-- C10 witness at concrete inputs: NFL Team nwe equals an NBA Team nwe (distinct
classes, equal keys); comparing the NFL Team to a BoxScore raises AttributeError,
as does comparing the BoxScore to the NFL Team. -/
theorem eq_no_type_check_witness :
    NflTeam.pyEq ⟨0, "nwe"⟩ ⟨[("teamID", "nwe")]⟩ = .ok true ∧
    NflTeam.pyEq ⟨0, "nwe"⟩ (NbaTeam.toObj ⟨1, "nwe"⟩) = .ok true ∧
    NbaTeam.pyEq ⟨1, "nwe"⟩ (NflTeam.toObj ⟨0, "nwe"⟩) = .ok true ∧
    NflTeam.pyEq ⟨0, "nwe"⟩ (BoxScore.toObj ⟨2, "201609080den"⟩) = .error .attributeError ∧
    BoxScore.pyEq ⟨2, "201609080den"⟩ (NflTeam.toObj ⟨0, "nwe"⟩) = .error .attributeError :=
  eq_no_type_check ⟨0, "nwe"⟩ ⟨1, "nwe"⟩ ⟨2, "201609080den"⟩ ⟨[("teamID", "nwe")]⟩
    (BoxScore.toObj ⟨2, "201609080den"⟩) (NflTeam.toObj ⟨0, "nwe"⟩) "nwe" rfl rfl rfl

/-! ## Winner -/

/-- C8: winner() returns home() when the home score strictly exceeds the away
score, away() when it is strictly lower, and the np.nan sentinel on a tie. -/
theorem winner_spec (doc : BoxDoc) (hm aw : Int)
    (h1 : home_score doc = some hm) (h2 : away_score doc = some aw) :
    (hm > aw → winner doc = (home doc).map WinnerRes.team) ∧
    (hm < aw → winner doc = (away doc).map WinnerRes.team) ∧
    (hm = aw → winner doc = some WinnerRes.nan) := by
  refine ⟨?_, ?_, ?_⟩
  · intro hcmp
    simp [winner, h1, h2, hcmp]
  · intro hcmp
    have hng : ¬ (hm > aw) := by omega
    simp [winner, h1, h2, hcmp, hng]
  · intro hcmp
    subst hcmp
    simp [winner, h1, h2]

/-- C8 witness at concrete inputs: a 34-28 home win names the home team, and a
20-20 tie yields the sentinel. -/
theorem winner_spec_witness :
    winner exDoc = some (WinnerRes.team "nwe") ∧
    winner exDocTie = some WinnerRes.nan := by
  constructor
  · have h := (winner_spec exDoc 34 28 rfl rfl).1 (by decide)
    rw [h]; rfl
  · exact (winner_spec exDocTie 20 20 rfl rfl).2.2 rfl

/-! ## Date and season -/

/-- C9: a boxscore id beginning with eight decimal digits that form a valid
calendar date makes date() return exactly that date, and season() the date's year
minus one for January-through-March months and the year otherwise; an id without
such an eight-digit beginning makes date() raise. -/
theorem date_season_spec (b t : BoxScore) (y m d : Nat)
    (hlen : 8 ≤ b.boxscore_id.toList.length)
    (hdig : (b.boxscore_id.toList.take 8).all Char.isDigit)
    (hy : digitsToNat (b.boxscore_id.toList.take 4) = y)
    (hm : digitsToNat ((b.boxscore_id.toList.drop 4).take 2) = m)
    (hd : digitsToNat ((b.boxscore_id.toList.drop 6).take 2) = d)
    (hvalid : 1 ≤ y ∧ y ≤ 9999 ∧ 1 ≤ m ∧ m ≤ 12 ∧ 1 ≤ d ∧ d ≤ daysInMonth y m)
    (hbad : ¬ (8 ≤ t.boxscore_id.toList.length ∧
      (t.boxscore_id.toList.take 8).all Char.isDigit)) :
    b.date = some ⟨y, m, d⟩ ∧
    b.season = some (if m ≤ 3 then y - 1 else y) ∧
    t.date = none := by
  have hg : matchDateGroups b.boxscore_id = some (y, m, d) := by
    rw [matchDateGroups]
    rw [if_pos ⟨hlen, hdig⟩]
    rw [hy, hm, hd]
  have hdd : datetime_date y m d = some ⟨y, m, d⟩ := by
    rw [datetime_date, if_pos hvalid]
  have hdate : b.date = some ⟨y, m, d⟩ := by
    simp [BoxScore.date, hg, hdd]
  refine ⟨hdate, ?_, ?_⟩
  · simp [BoxScore.season, hdate]
  · have hgn : matchDateGroups t.boxscore_id = none := by
      rw [matchDateGroups, if_neg hbad]
    simp [BoxScore.date, hgn]

/-- C9 witness at concrete inputs: id 201702050atl gives February 5 2017 and
season 2016; an id not led by eight digits makes date() raise. -/
theorem date_season_spec_witness :
    BoxScore.date ⟨0, "201702050atl"⟩ = some ⟨2017, 2, 5⟩ ∧
    BoxScore.season ⟨0, "201702050atl"⟩ = some 2016 ∧
    BoxScore.date ⟨1, "week-17-nwe"⟩ = none :=
  date_season_spec ⟨0, "201702050atl"⟩ ⟨1, "week-17-nwe"⟩ 2017 2 5
    (by decide) (by decide) (by decide) (by decide) (by decide) (by decide) (by decide)

end Sportsref
